import Mathlib

/-
Shallow embedding of the iAvatar SadTalker API service (src/main.py).

The filesystem is modelled as the set of paths that currently exist
(`Disk`).  Everything the service cannot control -- the outcome of the
external SadTalker subprocess, the availability of the torch library,
the result of globbing the output directory, and which `os.remove`
calls fail -- is collected in an explicit environment record (`Env`),
and every handler is a pure function of its inputs, the disk and that
environment.
-/

set_option autoImplicit false

namespace IAvatar

/-- Filesystem paths are plain strings, as in the Python source. -/
abbrev Path := String

/-- The set of files currently present on disk, as a duplicate-free-by
construction list of paths. -/
abbrev Disk := List Path

/-- Writing a file with `open(path, "wb")` creates it (or truncates an
existing one); on the path level the file simply exists afterwards. -/
def Disk.create (d : Disk) (p : Path) : Disk :=
  if p ∈ d then d else p :: d

/-- A successful `os.remove(p)`: afterwards `p` is no longer on disk. -/
def Disk.remove (d : Disk) (p : Path) : Disk :=
  d.filter (fun q => decide (q ≠ p))

/-- `OUTPUT_DIR = os.getenv("OUTPUT_DIR", "/workspace/iAvatar/outputs")`,
at its default value. -/
def OUTPUT_DIR : Path := "/workspace/iAvatar/outputs"

/-- `TEMP_DIR = os.getenv("TEMP_DIR", "/workspace/iAvatar/temp")`, at its
default value. -/
def TEMP_DIR : Path := "/workspace/iAvatar/temp"

/-- The temp path of the uploaded image: `TEMP_DIR/job_id_image.jpg`
(an f-string interpolation in the source). -/
def tempImagePath (job_id : String) : Path :=
  TEMP_DIR ++ "/" ++ job_id ++ "_image.jpg"

/-- The temp path of the uploaded audio: `TEMP_DIR/job_id_audio.wav`. -/
def tempAudioPath (job_id : String) : Path :=
  TEMP_DIR ++ "/" ++ job_id ++ "_audio.wav"

/-- The deterministic output path `OUTPUT_DIR/job_id_result.mp4`, built
by direct string interpolation of the job id, with no sanitization. -/
def outputPath (job_id : String) : Path :=
  OUTPUT_DIR ++ "/" ++ job_id ++ "_result.mp4"

/-- Python `s.startswith(pre)`: `pre` is a character-level prefix of `s`. -/
def startswith (s pre : String) : Bool :=
  pre.data.isPrefixOf s.data

/-- Auxiliary step of `os.path.dirname`: given the reversed characters of
`p` starting at the final path separator (inclusive), produce the reversed
head, stripping trailing separators unless the head is all separators. -/
def dirnameAux (tailRev : List Char) : List Char :=
  if tailRev = [] then []
  else if tailRev.all (fun c => decide (c = '/')) then tailRev
  else tailRev.dropWhile (fun c => decide (c = '/'))

/-- `os.path.dirname(p)` (posix): everything before the final separator,
with trailing separators stripped unless the result is all separators. -/
def dirname (p : String) : String :=
  String.mk ((dirnameAux ((p.data.reverse).dropWhile (fun c => decide (c ≠ '/')))).reverse)

/-- Observable behaviour of the torch dependency when `_has_gpu` probes it:
whether `import torch` succeeds, whether `torch.cuda.is_available()` raises,
and -- when it does not raise -- what it returns. -/
structure TorchEnv where
  importOk : Bool
  queryRaises : Bool
  cudaAvailable : Bool
  deriving DecidableEq

/-- `SadTalkerGenerator._has_gpu`: `import torch; return
torch.cuda.is_available()` under a bare `except:` that turns any failure
into `False`.  The model is total (returns `Bool`, never raises). -/
def _has_gpu (t : TorchEnv) : Bool :=
  if t.importOk = false then false
  else if t.queryRaises then false
  else t.cudaAvailable

/-- The Python error text raised by `cmd.append("--enhancer", "gfpgan")`:
`list.append` takes exactly one argument. -/
def appendTypeError : String := "append() takes exactly one argument (2 given)"

/-- Construction of the SadTalker command line (lines 89-104 of
`main.py`).  The enhancer branch calls `cmd.append` with two arguments,
which raises a `TypeError` instead of extending the command. -/
def buildCmd (t : TorchEnv) (image_path audio_path result_dir preprocess : String)
    (still use_enhancer : Bool) : Except String (List String) :=
  let cmd := ["python", "inference.py",
              "--driven_audio", audio_path,
              "--source_image", image_path,
              "--result_dir", result_dir,
              "--preprocess", preprocess]
  let cmd := if _has_gpu t = false then cmd ++ ["--cpu"] else cmd
  let cmd := if still then cmd ++ ["--still"] else cmd
  if use_enhancer then Except.error appendTypeError else Except.ok cmd

/-- The wall-clock timeout (seconds) passed to `subprocess.run` for the
generation command. -/
def GENERATION_TIMEOUT : Nat := 120

/-- What `subprocess.run(cmd, ..., timeout=120)` observes. -/
inductive ProcOutcome where
  | exited (code : Int) (stderr : String)
  | timedOut
  deriving DecidableEq

/-- Environment of one request: everything outside the service's own
control.  `procDuration`, `procExit`, `procStderr` describe the external
SadTalker process (how long it runs and how it exits); `mp4Matches` is
the list returned by `Path(result_dir).glob("*.mp4")` after the process
step, in glob enumeration order; `failingRemoves` is the set of paths on
which `os.remove` raises. -/
structure Env where
  is_initialized : Bool
  torch : TorchEnv
  procDuration : Nat
  procExit : Int
  procStderr : String
  mp4Matches : List Path
  failingRemoves : List Path
  deriving DecidableEq

/-- Result of `subprocess.run(cmd, ..., timeout=120)`: a
`TimeoutExpired` when the process outlives the timeout, otherwise its
exit status and stderr. -/
def runSadTalker (e : Env) : ProcOutcome :=
  if GENERATION_TIMEOUT < e.procDuration then ProcOutcome.timedOut
  else ProcOutcome.exited e.procExit e.procStderr

/-- Outcome of `SadTalkerGenerator.generate_video`: the returned path or
the stringified raised exception, whether the external process was
actually launched, and the disk afterwards. -/
structure GenOutcome where
  result : Except String Path
  invoked : Bool
  disk : Disk

/-- `SadTalkerGenerator.generate_video` (lines 78-133): build the
command line, run the external process with a 120s timeout, require a
zero exit status, glob `*.mp4` in `os.path.dirname(output_path)` and
move the first match to `output_path`.  Errors raised inside the `try`
are re-raised as `Generation failed: ...`; a `TimeoutExpired` is
re-raised as `Video generation timeout` (and is not wrapped again). -/
def generate_video (e : Env) (d : Disk)
    (image_path audio_path output_path preprocess : String)
    (still use_enhancer : Bool) : GenOutcome :=
  match buildCmd e.torch image_path audio_path (dirname output_path) preprocess still use_enhancer with
  | Except.error msg =>
      { result := Except.error ("Generation failed: " ++ msg), invoked := false, disk := d }
  | Except.ok _ =>
      match runSadTalker e with
      | ProcOutcome.timedOut =>
          { result := Except.error "Video generation timeout", invoked := true, disk := d }
      | ProcOutcome.exited code stderr =>
          if code = 0 then
            match e.mp4Matches with
            | [] =>
                { result := Except.error "Generation failed: No output video generated",
                  invoked := true, disk := d }
            | f :: _ =>
                { result := Except.ok output_path, invoked := true,
                  disk := (d.remove f).create output_path }
          else
            { result := Except.error ("Generation failed: SadTalker generation failed: " ++ stderr),
              invoked := true, disk := d }

/-- `cleanup_temp_files` (lines 293-300): for each path, if it exists try
to `os.remove` it; a failing removal is only logged and the loop moves to
the next path.  Total by construction: no error ever escapes. -/
def cleanup_temp_files (failing : List Path) : Disk → List Path → Disk
  | d, [] => d
  | d, p :: rest =>
      if p ∈ d then
        if p ∈ failing then cleanup_temp_files failing d rest
        else cleanup_temp_files failing (d.remove p) rest
      else cleanup_temp_files failing d rest

/-- The cleanup loop of the synchronous endpoint's `except` block (lines
224-226): `os.remove` each existing path, with no `try` around the
removal, so the first failing removal raises out of the loop and the
remaining paths are never attempted.  Returns the disk together with the
path whose removal raised, if any. -/
def removeExisting (failing : List Path) : Disk → List Path → Disk × Option Path
  | d, [] => (d, none)
  | d, p :: rest =>
      if p ∈ d then
        if p ∈ failing then (d, some p)
        else removeExisting failing (d.remove p) rest
      else removeExisting failing d rest

/-- An uploaded multipart file; only its declared content type matters to
the control flow being verified. -/
structure Upload where
  content_type : String
  deriving DecidableEq

/-- An HTTP response of this service: a `FileResponse`, a JSON job-status
body, or an `HTTPException`. -/
inductive Response where
  | file (path : Path) (media_type : String) (filename : String)
  | json (job_id : String) (status : String)
  | httpError (code : Nat) (detail : String)
  deriving DecidableEq

/-- Result of one synchronous `/generate-avatar` request: the streamed
file together with the deferred background-cleanup arguments, an
`HTTPException` response, or an exception raised by `os.remove` inside
the error-cleanup loop (which escapes the handler instead of the 500). -/
inductive SyncResult where
  | success (path filename : String) (disk : Disk) (deferred : List Path)
  | httpError (code : Nat) (detail : String) (disk : Disk)
  | cleanupRaised (p : Path) (disk : Disk)
  deriving DecidableEq

/-- `POST /generate-avatar` (lines 165-227): initialization check,
content-type validation of both uploads, persist both uploads under
`TEMP_DIR`, run `generate_video`; on success schedule
`cleanup_temp_files(image_path, audio_path)` as a background task and
stream the result; on any exception remove each existing path of
`[image_path, audio_path, output_path]` and raise a 500 carrying the
stringified error. -/
def generate_avatar (e : Env) (d : Disk) (image audio : Upload)
    (job_id preprocess : String) (still use_enhancer : Bool) : SyncResult :=
  if e.is_initialized = false then
    SyncResult.httpError 503 "SadTalker not initialized" d
  else if startswith image.content_type "image/" = false then
    SyncResult.httpError 400 "Invalid image file" d
  else if startswith audio.content_type "audio/" = false then
    SyncResult.httpError 400 "Invalid audio file" d
  else
    let image_path := tempImagePath job_id
    let audio_path := tempAudioPath job_id
    let output_path := outputPath job_id
    let d1 := (d.create image_path).create audio_path
    let g := generate_video e d1 image_path audio_path output_path preprocess still use_enhancer
    match g.result with
    | Except.ok result_path =>
        SyncResult.success result_path ("avatar_" ++ job_id ++ ".mp4") g.disk [image_path, audio_path]
    | Except.error msg =>
        match removeExisting e.failingRemoves g.disk [image_path, audio_path, output_path] with
        | (d2, none) => SyncResult.httpError 500 msg d2
        | (d2, some p) => SyncResult.cleanupRaised p d2

/-- Result of one `POST /generate-avatar-async` request: the immediate
response, the disk when the response is returned, and whether the
background generation task was launched. -/
structure AsyncOutcome where
  response : Response
  disk : Disk
  launched : Bool
  deriving DecidableEq

/-- `POST /generate-avatar-async` (lines 229-259): initialization check,
persist both uploads under `TEMP_DIR`, launch `background_generate` as an
untracked task and immediately answer with the job id and status
`processing`.  The handler contains no content-type validation. -/
def generate_avatar_async (e : Env) (d : Disk) (image audio : Upload)
    (job_id preprocess : String) (still use_enhancer : Bool) : AsyncOutcome :=
  if e.is_initialized = false then
    { response := Response.httpError 503 "SadTalker not initialized", disk := d, launched := false }
  else
    let d1 := (d.create (tempImagePath job_id)).create (tempAudioPath job_id)
    { response := Response.json job_id "processing", disk := d1, launched := true }

/-- Outcome of the `background_generate` task: the swallowed generation
result (only logged), whether the external process ran, and the disk
after the `finally` cleanup. -/
structure BgOutcome where
  result : Except String Path
  invoked : Bool
  disk : Disk

/-- `background_generate` (lines 275-291): run `generate_video`; any
exception is only logged; the `finally` block always runs
`cleanup_temp_files(image_path, audio_path)`. -/
def background_generate (e : Env) (d : Disk) (job_id preprocess : String)
    (still use_enhancer : Bool) : BgOutcome :=
  let g := generate_video e d (tempImagePath job_id) (tempAudioPath job_id)
            (outputPath job_id) preprocess still use_enhancer
  { result := g.result, invoked := g.invoked,
    disk := cleanup_temp_files e.failingRemoves g.disk [tempImagePath job_id, tempAudioPath job_id] }

/-- `GET /job/{job_id}` (lines 261-273): derive the deterministic output
path from the client-supplied id; return the file when it exists, else a
`processing` JSON body.  No issued-token check, no sanitization. -/
def get_job_status (d : Disk) (job_id : String) : Response :=
  let output_path := outputPath job_id
  if output_path ∈ d then
    Response.file output_path "video/mp4" ("avatar_" ++ job_id ++ ".mp4")
  else
    Response.json job_id "processing"

/-- Disk at the end of a synchronous request's lifecycle: after the
deferred background cleanup has run on the success path, and as left by
the handler on the other paths. -/
def syncFinalDisk (e : Env) (r : SyncResult) : Disk :=
  match r with
  | SyncResult.success _ _ d deferred => cleanup_temp_files e.failingRemoves d deferred
  | SyncResult.httpError _ _ d => d
  | SyncResult.cleanupRaised _ d => d

/-- Disk at the end of an asynchronous request's lifecycle: after the
launched background generation (including its `finally` cleanup) has
completed, when one was launched. -/
def asyncFinalDisk (e : Env) (d : Disk) (image audio : Upload)
    (job_id preprocess : String) (still use_enhancer : Bool) : Disk :=
  let o := generate_avatar_async e d image audio job_id preprocess still use_enhancer
  if o.launched then (background_generate e o.disk job_id preprocess still use_enhancer).disk
  else o.disk

/-- Lexical resolution of `..` and `.` segments of an absolute path,
as the operating system resolves them when the file is opened. -/
def resolveComponents (cs : List String) : List String :=
  cs.foldl
    (fun acc c =>
      if c = "" then acc
      else if c = "." then acc
      else if c = ".." then acc.dropLast
      else acc ++ [c]) []

/-- Split a character list at each separator (the components of
`p.split("/")`). -/
def splitSlash : List Char → List Char → List String
  | [], acc => [String.mk acc.reverse]
  | c :: rest, acc =>
      if c = '/' then String.mk acc.reverse :: splitSlash rest []
      else splitSlash rest (c :: acc)

/-- The directory components a path string finally refers to. -/
def resolvePath (p : String) : List String :=
  resolveComponents (splitSlash p.data [])

/-- Whether the file `p` finally refers to lies inside directory `dir`. -/
def withinDir (dir p : String) : Bool :=
  (resolvePath dir).isPrefixOf (resolvePath p)

/-! ### Helper lemmas about the disk model -/

lemma mem_create_self (d : Disk) (p : Path) : p ∈ d.create p := by
  unfold Disk.create
  split
  · assumption
  · exact List.mem_cons_self p d

lemma mem_create_of_mem (d : Disk) (p q : Path) (h : q ∈ d) : q ∈ d.create p := by
  unfold Disk.create
  split
  · exact h
  · exact List.mem_cons_of_mem p h

lemma mem_remove {d : Disk} {p q : Path} : q ∈ d.remove p ↔ q ∈ d ∧ q ≠ p := by
  unfold Disk.remove
  simp [List.mem_filter]

lemma cleanup_subset (failing : List Path) (l : List Path) :
    ∀ (d : Disk) (q : Path), q ∈ cleanup_temp_files failing d l → q ∈ d := by
  induction l with
  | nil => intro d q h; simpa [cleanup_temp_files] using h
  | cons p rest ih =>
      intro d q h
      by_cases hd : p ∈ d
      · by_cases hf : p ∈ failing
        · simp only [cleanup_temp_files, if_pos hd, if_pos hf] at h
          exact ih d q h
        · simp only [cleanup_temp_files, if_pos hd, if_neg hf] at h
          exact (mem_remove.mp (ih _ q h)).1
      · simp only [cleanup_temp_files, if_neg hd] at h
        exact ih d q h

lemma cleanup_not_mem (failing : List Path) (p : Path) (hf : p ∉ failing) :
    ∀ (l : List Path) (d : Disk), p ∈ l → p ∉ cleanup_temp_files failing d l := by
  intro l
  induction l with
  | nil => intro d h; cases h
  | cons q rest ih =>
      intro d hp
      by_cases hd : q ∈ d
      · by_cases hqf : q ∈ failing
        · have hpq : p ≠ q := fun h => hf (h ▸ hqf)
          have hpr : p ∈ rest := (List.mem_cons.mp hp).resolve_left hpq
          simpa only [cleanup_temp_files, if_pos hd, if_pos hqf] using ih d hpr
        · rcases List.mem_cons.mp hp with h1 | h2
          · subst h1
            simp only [cleanup_temp_files, if_pos hd, if_neg hqf]
            intro hmem
            have := cleanup_subset failing rest (d.remove p) p hmem
            exact (mem_remove.mp this).2 rfl
          · simpa only [cleanup_temp_files, if_pos hd, if_neg hqf] using ih (d.remove q) h2
      · rcases List.mem_cons.mp hp with h1 | h2
        · subst h1
          simp only [cleanup_temp_files, if_neg hd]
          intro hmem
          exact hd (cleanup_subset failing rest d p hmem)
        · simpa only [cleanup_temp_files, if_neg hd] using ih d h2

lemma removeExisting_no_failing (failing : List Path) :
    ∀ l : List Path, (∀ p ∈ l, p ∉ failing) →
      ∀ d : Disk, removeExisting failing d l = (cleanup_temp_files failing d l, none) := by
  intro l
  induction l with
  | nil => intro _ d; rfl
  | cons p rest ih =>
      intro h d
      have hp : p ∉ failing := h p (List.mem_cons_self p rest)
      have hrest : ∀ q ∈ rest, q ∉ failing := fun q hq => h q (List.mem_cons_of_mem p hq)
      by_cases hd : p ∈ d
      · simp only [removeExisting, cleanup_temp_files, if_pos hd, if_neg hp]
        exact ih hrest (d.remove p)
      · simp only [removeExisting, cleanup_temp_files, if_neg hd]
        exact ih hrest d

lemma removeExisting_nil_failing (l : List Path) :
    ∀ d : Disk, removeExisting [] d l = (cleanup_temp_files [] d l, none) := by
  induction l with
  | nil => intro d; rfl
  | cons p rest ih =>
      intro d
      by_cases hd : p ∈ d
      · simp only [removeExisting, cleanup_temp_files, if_pos hd, List.not_mem_nil, if_neg,
          ite_false]
        exact ih (d.remove p)
      · simp only [removeExisting, cleanup_temp_files, if_neg hd]
        exact ih d

lemma generate_video_error_disk (e : Env) (d : Disk)
    (ip ap op pp : String) (st ue : Bool) (msg : String)
    (h : (generate_video e d ip ap op pp st ue).result = Except.error msg) :
    (generate_video e d ip ap op pp st ue).disk = d := by
  unfold generate_video at *
  cases hb : buildCmd e.torch ip ap (dirname op) pp st ue with
  | error m => simp [hb]
  | ok cmd =>
      cases hr : runSadTalker e with
      | timedOut => simp [hb, hr]
      | exited code stderr =>
          by_cases hc : code = 0
          · cases hm : e.mp4Matches with
            | nil => simp [hb, hr, hc, hm]
            | cons f fs => simp [hb, hr, hc, hm] at h
          · simp [hb, hr, hc]

/-! ### Helper lemmas about path strings -/

lemma dropWhile_append_all {α : Type} (p : α → Bool) (l1 l2 : List α)
    (h : ∀ a ∈ l1, p a = true) : (l1 ++ l2).dropWhile p = l2.dropWhile p := by
  induction l1 with
  | nil => simp
  | cons a t ih =>
      have ha : p a = true := h a (List.mem_cons_self a t)
      simp only [List.cons_append, List.dropWhile_cons, ha, if_true]
      exact ih (fun x hx => h x (List.mem_cons_of_mem a hx))

lemma dirname_outputDirAppend (name : List Char) (h : ∀ c ∈ name, c ≠ '/') :
    dirname (String.mk (OUTPUT_DIR.data ++ '/' :: name)) = OUTPUT_DIR := by
  unfold dirname
  have h2 : (String.mk (OUTPUT_DIR.data ++ '/' :: name)).data.reverse
      = name.reverse ++ '/' :: OUTPUT_DIR.data.reverse := by
    simp [List.reverse_append]
  rw [h2]
  have h3 : ∀ c ∈ name.reverse, (fun c => decide (c ≠ '/')) c = true := by
    intro c hc
    simpa using h c (List.mem_reverse.mp hc)
  rw [dropWhile_append_all _ _ _ h3]
  decide

lemma outputPath_data (job_id : String) :
    (outputPath job_id).data
      = OUTPUT_DIR.data ++ '/' :: (job_id.data ++ "_result.mp4".data) := rfl

lemma dirname_outputPath (job_id : String) (h : '/' ∉ job_id.data) :
    dirname (outputPath job_id) = OUTPUT_DIR := by
  have hmk : outputPath job_id
      = String.mk (OUTPUT_DIR.data ++ '/' :: (job_id.data ++ "_result.mp4".data)) := rfl
  rw [hmk]
  apply dirname_outputDirAppend
  intro c hc
  rcases List.mem_append.mp hc with h1 | h2
  · intro hcs
    exact h (hcs ▸ h1)
  · have : ∀ c ∈ "_result.mp4".data, c ≠ '/' := by decide
    exact this c h2

lemma tempAudioPath_ne_tempImagePath (job_id : String) :
    tempAudioPath job_id ≠ tempImagePath job_id := by
  intro h
  have hd : (TEMP_DIR ++ "/" ++ job_id).data ++ "_audio.wav".data
      = (TEMP_DIR ++ "/" ++ job_id).data ++ "_image.jpg".data := congrArg String.data h
  exact absurd (List.append_cancel_left hd) (by decide)

/-! ### Concrete environments used to instantiate the theorems -/

/-- A healthy environment: initialized, GPU present, the external process
exits 0 within the timeout, one glob match, no failing removals. -/
def envOk : Env :=
  { is_initialized := true,
    torch := { importOk := true, queryRaises := false, cudaAvailable := true },
    procDuration := 30, procExit := 0, procStderr := "",
    mp4Matches := ["/workspace/iAvatar/outputs/generated.mp4"],
    failingRemoves := [] }

/-- Environment in which the external process outlives the 120s timeout. -/
def envTimeout : Env := { envOk with procDuration := 121 }

/-- Environment in which the external process exits with status 1. -/
def envExitFail : Env := { envOk with procExit := 1, procStderr := "boom" }

/-- Environment in which the process exits 0 but produces no mp4 file. -/
def envNoOutput : Env := { envOk with mp4Matches := [] }

/-- Environment in which the process fails and `os.remove` raises on the
temp image path of job `j5`. -/
def envRmFail : Env := { envExitFail with failingRemoves := [tempImagePath "j5"] }

/-- Environment in which the process fails and `os.remove` raises on the
temp audio path of job `j5` (the second cleanup candidate). -/
def envRmFailAudio : Env := { envExitFail with failingRemoves := [tempAudioPath "j5"] }

/-- Environment in which the process fails and `os.remove` raises on the
output path of job `j5` (the third cleanup candidate). -/
def envRmFailOut : Env := { envExitFail with failingRemoves := [outputPath "j5"] }

/-! ### The claims -/

/-- Claim C7: for every call to `generate_video` with `use_enhancer` set
to true, command-line construction fails with an exception before the
external process is ever launched -- the enhancer branch passes two
arguments to the one-argument `list.append` -- so every such call
results in a generation failure (the wrapped `TypeError`), never a
video, and leaves the disk untouched. -/
theorem c7_enhancer_always_fails (e : Env) (d : Disk) (ip ap op pp : String) (st : Bool) :
    (generate_video e d ip ap op pp st true).invoked = false ∧
    (generate_video e d ip ap op pp st true).result
      = Except.error ("Generation failed: " ++ appendTypeError) ∧
    (generate_video e d ip ap op pp st true).disk = d := by
  unfold generate_video buildCmd
  simp

/-- Claim C8: the accelerator probe `_has_gpu` is total (a `Bool`-valued
function of the torch environment, it never raises) and defaults to no
accelerator on any failure: it returns false whenever the torch import
fails or the cuda query raises, and returns true exactly when the import
succeeds, the query does not raise, and cuda reports available; moreover
the built command line contains `--cpu` if and only if the probe
returned false. -/
theorem c8_gpu_probe (t : TorchEnv) :
    (t.importOk = false → _has_gpu t = false) ∧
    (t.queryRaises = true → _has_gpu t = false) ∧
    (_has_gpu t = true ↔ (t.importOk = true ∧ t.queryRaises = false ∧ t.cudaAvailable = true)) ∧
    (∀ (ip ap rd pp : String) (st : Bool),
      ip ≠ "--cpu" → ap ≠ "--cpu" → rd ≠ "--cpu" → pp ≠ "--cpu" →
      ∃ cmd : List String, buildCmd t ip ap rd pp st false = Except.ok cmd ∧
        ("--cpu" ∈ cmd ↔ _has_gpu t = false)) := by
  obtain ⟨i, q, c⟩ := t
  refine ⟨?_, ?_, ?_, ?_⟩
  · cases i <;> cases q <;> cases c <;> simp [_has_gpu]
  · cases i <;> cases q <;> cases c <;> simp [_has_gpu]
  · cases i <;> cases q <;> cases c <;> simp [_has_gpu]
  · intro ip ap rd pp st h1 h2 h3 h4
    cases i <;> cases q <;> cases c <;> cases st <;>
      exact ⟨_, rfl, by
        simp [_has_gpu, buildCmd, Ne.symm h1, Ne.symm h2, Ne.symm h3, Ne.symm h4]⟩

/-- Witness for C8: with the torch import failing, the probe answers
false and the command line for a concrete job carries `--cpu`. -/
theorem c8_gpu_probe_witness :
    _has_gpu { importOk := false, queryRaises := false, cudaAvailable := true } = false ∧
    (∃ cmd : List String,
      buildCmd { importOk := false, queryRaises := false, cudaAvailable := true }
        "face.png" "speech.wav" "/workspace/iAvatar/outputs" "crop" false false
        = Except.ok cmd ∧
      ("--cpu" ∈ cmd ↔
        _has_gpu { importOk := false, queryRaises := false, cudaAvailable := true } = false)) :=
  ⟨(c8_gpu_probe _).1 rfl,
   (c8_gpu_probe _).2.2.2 "face.png" "speech.wav" "/workspace/iAvatar/outputs" "crop" false
     (by decide) (by decide) (by decide) (by decide)⟩

/-- Claim C9: `cleanup_temp_files` never propagates an error -- it is a
total function into `Disk` -- and a failure to delete one path does not
prevent the remaining deletion attempts: every listed path whose removal
does not fail ends up off the disk, regardless of failures on the other
paths; and the cleanup only ever removes files, so paths that do not
exist are merely skipped. -/
theorem c9_cleanup_best_effort (failing : List Path) (d : Disk) (l : List Path) (p : Path) :
    (p ∈ l → p ∉ failing → p ∉ cleanup_temp_files failing d l) ∧
    (p ∈ cleanup_temp_files failing d l → p ∈ d) :=
  ⟨fun hl hf => cleanup_not_mem failing p hf l d hl,
   fun h => cleanup_subset failing l d p h⟩

/-- Witness for C9: with the removal of `/t/a` failing, `/t/b` is still
deleted, and the failing `/t/a` stays on disk but nothing was added. -/
theorem c9_cleanup_best_effort_witness :
    ("/t/b" ∈ (["/t/a", "/t/b"] : List Path) → "/t/b" ∉ (["/t/a"] : List Path) →
      "/t/b" ∉ cleanup_temp_files ["/t/a"] ["/t/a", "/t/b"] ["/t/a", "/t/b"]) ∧
    ("/t/a" ∈ cleanup_temp_files ["/t/a"] ["/t/a", "/t/b"] ["/t/a", "/t/b"] →
      "/t/a" ∈ (["/t/a", "/t/b"] : List Path)) ∧
    "/t/b" ∉ cleanup_temp_files ["/t/a"] ["/t/a", "/t/b"] ["/t/a", "/t/b"] :=
  ⟨(c9_cleanup_best_effort ["/t/a"] ["/t/a", "/t/b"] ["/t/a", "/t/b"] "/t/b").1,
   (c9_cleanup_best_effort ["/t/a"] ["/t/a", "/t/b"] ["/t/a", "/t/b"] "/t/a").2,
   (c9_cleanup_best_effort ["/t/a"] ["/t/a", "/t/b"] ["/t/a", "/t/b"] "/t/b").1
     (by decide) (by decide)⟩

/-- Claim C4: `GET /job/{id}` checks the existence of the deterministic
output path `OUTPUT_DIR/id_result.mp4` and returns that file when it
exists, otherwise a JSON body with the token and status `processing`;
its result is always one of those two shapes, so polling a token that
was never submitted (whose output file never appears) answers
`processing` on every poll -- never an error and never a distinguishable
not-found result. -/
theorem c4_job_poll (d : Disk) (job_id : String) :
    (outputPath job_id ∈ d →
      get_job_status d job_id
        = Response.file (outputPath job_id) "video/mp4" ("avatar_" ++ job_id ++ ".mp4")) ∧
    (outputPath job_id ∉ d → get_job_status d job_id = Response.json job_id "processing") ∧
    (get_job_status d job_id
        = Response.file (outputPath job_id) "video/mp4" ("avatar_" ++ job_id ++ ".mp4") ∨
      get_job_status d job_id = Response.json job_id "processing") := by
  unfold get_job_status
  by_cases h : outputPath job_id ∈ d <;> simp [h]

/-- Witness for C4: on an empty disk an unknown token polls as
`processing`, and once the deterministic output file exists the same
endpoint serves it. -/
theorem c4_job_poll_witness :
    get_job_status [] "ghost" = Response.json "ghost" "processing" ∧
    get_job_status [outputPath "tok"] "tok"
      = Response.file (outputPath "tok") "video/mp4" ("avatar_" ++ "tok" ++ ".mp4") :=
  ⟨(c4_job_poll [] "ghost").2.1 (by decide),
   (c4_job_poll [outputPath "tok"] "tok").1 (by decide)⟩

/-- Claim C2: `generate_video` (invoked here without the always-broken
enhancer flag, so that the external process actually runs) returns the
output path exactly when the external process finishes within the
120-second timeout with exit status zero AND the `*.mp4` glob of the
result directory is non-empty afterwards; a non-zero exit status and a
missing output each raise a stringified exception, and exceeding the
timeout raises the dedicated timeout failure. -/
theorem c2_generate_video_contract (e : Env) (d : Disk) (ip ap op pp : String) (st : Bool) :
    ((generate_video e d ip ap op pp st false).result = Except.ok op ↔
      (e.procDuration ≤ GENERATION_TIMEOUT ∧ e.procExit = 0 ∧ e.mp4Matches ≠ [])) ∧
    (GENERATION_TIMEOUT < e.procDuration →
      (generate_video e d ip ap op pp st false).result
        = Except.error "Video generation timeout") ∧
    (e.procDuration ≤ GENERATION_TIMEOUT → e.procExit ≠ 0 →
      (generate_video e d ip ap op pp st false).result
        = Except.error ("Generation failed: SadTalker generation failed: " ++ e.procStderr)) ∧
    (e.procDuration ≤ GENERATION_TIMEOUT → e.procExit = 0 → e.mp4Matches = [] →
      (generate_video e d ip ap op pp st false).result
        = Except.error "Generation failed: No output video generated") := by
  refine ⟨?_, ?_, ?_, ?_⟩
  · by_cases ht : GENERATION_TIMEOUT < e.procDuration
    · have hle : ¬ e.procDuration ≤ GENERATION_TIMEOUT := by omega
      simp [generate_video, runSadTalker, buildCmd, ht, hle]
    · by_cases hc : e.procExit = 0
      · cases hm : e.mp4Matches with
        | nil => simp [generate_video, runSadTalker, buildCmd, ht, hc, hm]
        | cons f fs =>
            have hle : e.procDuration ≤ GENERATION_TIMEOUT := by omega
            simp [generate_video, runSadTalker, buildCmd, ht, hc, hm, hle]
      · simp [generate_video, runSadTalker, buildCmd, ht, hc]
  · intro ht
    simp [generate_video, runSadTalker, buildCmd, ht]
  · intro hle hc
    have ht : ¬ GENERATION_TIMEOUT < e.procDuration := by omega
    simp [generate_video, runSadTalker, buildCmd, ht, hc]
  · intro hle hc hm
    have ht : ¬ GENERATION_TIMEOUT < e.procDuration := by omega
    simp [generate_video, runSadTalker, buildCmd, ht, hc, hm]

/-- Witness for C2: a run that exits 0 with one mp4 match succeeds; a
121-second run is reported as the timeout failure; exit status 1 and a
missing output each produce their stringified error. -/
theorem c2_generate_video_contract_witness :
    (generate_video envOk [] "i.png" "a.wav" "/workspace/iAvatar/outputs/j_result.mp4" "crop"
        false false).result = Except.ok "/workspace/iAvatar/outputs/j_result.mp4" ∧
    (generate_video envTimeout [] "i.png" "a.wav" "/workspace/iAvatar/outputs/j_result.mp4" "crop"
        false false).result = Except.error "Video generation timeout" ∧
    (generate_video envExitFail [] "i.png" "a.wav" "/workspace/iAvatar/outputs/j_result.mp4" "crop"
        false false).result
      = Except.error ("Generation failed: SadTalker generation failed: " ++ envExitFail.procStderr) ∧
    (generate_video envNoOutput [] "i.png" "a.wav" "/workspace/iAvatar/outputs/j_result.mp4" "crop"
        false false).result = Except.error "Generation failed: No output video generated" :=
  ⟨(c2_generate_video_contract envOk [] "i.png" "a.wav"
      "/workspace/iAvatar/outputs/j_result.mp4" "crop" false).1.mpr
      ⟨by decide, by decide, by decide⟩,
   (c2_generate_video_contract envTimeout [] "i.png" "a.wav"
      "/workspace/iAvatar/outputs/j_result.mp4" "crop" false).2.1 (by decide),
   (c2_generate_video_contract envExitFail [] "i.png" "a.wav"
      "/workspace/iAvatar/outputs/j_result.mp4" "crop" false).2.2.1 (by decide) (by decide),
   (c2_generate_video_contract envNoOutput [] "i.png" "a.wav"
      "/workspace/iAvatar/outputs/j_result.mp4" "crop" false).2.2.2 (by decide) (by decide) rfl⟩

/-- Claim C6: the directory globbed for `*.mp4` output discovery is
`os.path.dirname` of the deterministic output path, which for every job
id (ids never contain a path separator) is the single `OUTPUT_DIR`
shared by all jobs, not a per-job directory; and whenever the glob
yields one or more matches -- including multiple matches -- the first
match in glob enumeration order is silently moved to the job's
deterministic output path and that path is returned, with no tie-break
rule and no error. -/
theorem c6_output_discovery (job_id : String) (h : '/' ∉ job_id.data)
    (e : Env) (d : Disk) (ip ap pp : String) (st : Bool) (f : Path) (rest : List Path)
    (ht : e.procDuration ≤ GENERATION_TIMEOUT) (hc : e.procExit = 0)
    (hm : e.mp4Matches = f :: rest) :
    dirname (outputPath job_id) = OUTPUT_DIR ∧
    (generate_video e d ip ap (outputPath job_id) pp st false).result
      = Except.ok (outputPath job_id) ∧
    (generate_video e d ip ap (outputPath job_id) pp st false).disk
      = (d.remove f).create (outputPath job_id) := by
  have hnt : ¬ GENERATION_TIMEOUT < e.procDuration := by omega
  refine ⟨dirname_outputPath job_id h, ?_, ?_⟩ <;>
    simp [generate_video, runSadTalker, buildCmd, hnt, hc, hm]

/-- Environment whose output glob yields two matches. -/
def envMulti : Env :=
  { envOk with mp4Matches :=
      ["/workspace/iAvatar/outputs/a.mp4", "/workspace/iAvatar/outputs/b.mp4"] }

/-- Witness for C6: with two glob matches for job `w6`, the globbed
directory is the shared `OUTPUT_DIR` and the first match `a.mp4` is the
one moved onto the deterministic output path. -/
theorem c6_output_discovery_witness :
    dirname (outputPath "w6") = OUTPUT_DIR ∧
    (generate_video envMulti [] "i.png" "a.wav" (outputPath "w6") "crop" false false).result
      = Except.ok (outputPath "w6") ∧
    (generate_video envMulti [] "i.png" "a.wav" (outputPath "w6") "crop" false false).disk
      = (Disk.remove [] "/workspace/iAvatar/outputs/a.mp4").create (outputPath "w6") :=
  c6_output_discovery "w6" (by decide) envMulti [] "i.png" "a.wav" "crop" false
    "/workspace/iAvatar/outputs/a.mp4" ["/workspace/iAvatar/outputs/b.mp4"]
    (by decide) (by decide) rfl

/-- Claim C1 counterexample: a `text/plain` image upload and `text/plain`
audio upload submitted to the asynchronous endpoint are NOT rejected: the
handler answers with the job token, persists both temp files, and
launches the background task, whose generation step does invoke the
external process -- while the synchronous endpoint rejects the very same
uploads with a 400 client error before persisting anything. -/
theorem c1_counterexample :
    (generate_avatar_async envOk [] { content_type := "text/plain" }
        { content_type := "text/plain" } "job1" "crop" false false).response
      = Response.json "job1" "processing" ∧
    (generate_avatar_async envOk [] { content_type := "text/plain" }
        { content_type := "text/plain" } "job1" "crop" false false).launched = true ∧
    tempImagePath "job1" ∈ (generate_avatar_async envOk [] { content_type := "text/plain" }
        { content_type := "text/plain" } "job1" "crop" false false).disk ∧
    tempAudioPath "job1" ∈ (generate_avatar_async envOk [] { content_type := "text/plain" }
        { content_type := "text/plain" } "job1" "crop" false false).disk ∧
    (background_generate envOk (generate_avatar_async envOk [] { content_type := "text/plain" }
        { content_type := "text/plain" } "job1" "crop" false false).disk
        "job1" "crop" false false).invoked = true ∧
    generate_avatar envOk [] { content_type := "text/plain" } { content_type := "text/plain" }
        "job1" "crop" false false = SyncResult.httpError 400 "Invalid image file" [] := by
  decide

/-- Claim C1 (amended): the asynchronous generate endpoint performs NO
content-type validation -- of the synchronous endpoint's checks it
shares only the initialization check.  For every initialized environment
and any two uploads, whatever their content types, the request is
accepted: both temp files are persisted, the background generation task
is launched, and the response is the job token with status
`processing`. -/
theorem c1_async_no_validation (e : Env) (d : Disk) (image audio : Upload)
    (job_id preprocess : String) (still use_enhancer : Bool)
    (h : e.is_initialized = true) :
    (generate_avatar_async e d image audio job_id preprocess still use_enhancer).response
      = Response.json job_id "processing" ∧
    (generate_avatar_async e d image audio job_id preprocess still use_enhancer).launched
      = true ∧
    tempImagePath job_id
      ∈ (generate_avatar_async e d image audio job_id preprocess still use_enhancer).disk ∧
    tempAudioPath job_id
      ∈ (generate_avatar_async e d image audio job_id preprocess still use_enhancer).disk := by
  have h0 : ¬ (e.is_initialized = false) := by simp [h]
  unfold generate_avatar_async
  rw [if_neg h0]
  refine ⟨rfl, rfl, ?_, ?_⟩
  · exact mem_create_of_mem _ _ _ (mem_create_self _ _)
  · exact mem_create_self _ _

/-- Witness for the amended C1: a pdf-typed image and html-typed audio
are accepted by the async endpoint, persisted and launched. -/
theorem c1_async_no_validation_witness :
    (generate_avatar_async envOk [] { content_type := "application/pdf" }
        { content_type := "text/html" } "jw1" "full" true true).response
      = Response.json "jw1" "processing" ∧
    (generate_avatar_async envOk [] { content_type := "application/pdf" }
        { content_type := "text/html" } "jw1" "full" true true).launched = true ∧
    tempImagePath "jw1" ∈ (generate_avatar_async envOk [] { content_type := "application/pdf" }
        { content_type := "text/html" } "jw1" "full" true true).disk ∧
    tempAudioPath "jw1" ∈ (generate_avatar_async envOk [] { content_type := "application/pdf" }
        { content_type := "text/html" } "jw1" "full" true true).disk :=
  c1_async_no_validation envOk [] { content_type := "application/pdf" }
    { content_type := "text/html" } "jw1" "full" true true rfl

/-- Claim C10: the job-poll output path is derived by direct string
interpolation of the client-supplied token between the output-directory
base and the `_result.mp4` suffix, with no issued-token check and no
sanitization: for EVERY token string the handler serves whatever file
exists at the derived path; and there is a token with `../` segments
whose derived path resolves outside `OUTPUT_DIR`, which the handler
serves whenever that outside file exists. -/
theorem c10_path_traversal :
    (∀ (token : String) (d : Disk), outputPath token ∈ d →
      get_job_status d token
        = Response.file (outputPath token) "video/mp4" ("avatar_" ++ token ++ ".mp4")) ∧
    (∃ token : String,
      withinDir OUTPUT_DIR (outputPath token) = false ∧
      get_job_status [outputPath token] token
        = Response.file (outputPath token) "video/mp4" ("avatar_" ++ token ++ ".mp4")) := by
  constructor
  · intro token d h
    unfold get_job_status
    simp [h]
  · refine ⟨"../../secret", by decide, ?_⟩
    unfold get_job_status
    simp

/-- Witness for C10: with the escaped path on disk, polling the
traversal token serves the file lying outside the output directory. -/
theorem c10_path_traversal_witness :
    get_job_status [outputPath "../../secret"] "../../secret"
      = Response.file (outputPath "../../secret") "video/mp4"
          ("avatar_" ++ "../../secret" ++ ".mp4") :=
  c10_path_traversal.1 "../../secret" [outputPath "../../secret"] (by decide)

/-- If a temp path of the request was not on disk beforehand and no
removal fails, it is gone from the synchronous request's final disk. -/
lemma sync_not_mem (e : Env) (d : Disk) (image audio : Upload)
    (job_id preprocess : String) (still use_enhancer : Bool)
    (hf : e.failingRemoves = []) (p : Path) (hp : p ∉ d)
    (hmem : p ∈ [tempImagePath job_id, tempAudioPath job_id]) :
    p ∉ syncFinalDisk e (generate_avatar e d image audio job_id preprocess still use_enhancer) := by
  unfold generate_avatar
  split
  · simpa [syncFinalDisk] using hp
  · split
    · simpa [syncFinalDisk] using hp
    · split
      · simpa [syncFinalDisk] using hp
      · dsimp only
        split
        · -- success: the deferred cleanup removes both temp files
          simp only [syncFinalDisk, hf]
          exact cleanup_not_mem [] p (List.not_mem_nil p) _ _ hmem
        · -- error: the except-block loop removes all existing candidates
          rw [hf, removeExisting_nil_failing]
          simp only [syncFinalDisk]
          refine cleanup_not_mem [] p (List.not_mem_nil p) _ _ ?_
          rcases List.mem_cons.mp hmem with h1 | h2
          · exact h1 ▸ List.mem_cons_self _ _
          · have h3 : p = tempAudioPath job_id := by simpa using h2
            exact h3 ▸ List.mem_cons_of_mem _ (List.mem_cons_self _ _)

/-- If a temp path of the request was not on disk beforehand and no
removal fails, it is gone from the asynchronous request's final disk. -/
lemma async_not_mem (e : Env) (d : Disk) (image audio : Upload)
    (job_id preprocess : String) (still use_enhancer : Bool)
    (hf : e.failingRemoves = []) (p : Path) (hp : p ∉ d)
    (hmem : p ∈ [tempImagePath job_id, tempAudioPath job_id]) :
    p ∉ asyncFinalDisk e d image audio job_id preprocess still use_enhancer := by
  unfold asyncFinalDisk generate_avatar_async
  by_cases h1 : e.is_initialized = false
  · simpa [h1] using hp
  · rw [if_neg h1]
    simp only [background_generate, hf]
    exact cleanup_not_mem [] p (List.not_mem_nil p) _ _ hmem

/-- Claim C3: for every request to either generate endpoint (with fresh
temp paths for the job and the operating system permitting the
deletions), the two input temp files written for the request are off the
disk by the end of the request's lifecycle: on the synchronous success
path via the deferred background cleanup, on the synchronous error path
via the immediate deletion loop, and on the asynchronous path via the
`finally` cleanup that runs after the background generation whether or
not it raised. -/
theorem c3_temp_files_cleaned (e : Env) (d : Disk) (image audio : Upload)
    (job_id preprocess : String) (still use_enhancer : Bool)
    (hf : e.failingRemoves = [])
    (hi : tempImagePath job_id ∉ d) (ha : tempAudioPath job_id ∉ d) :
    (tempImagePath job_id ∉
        syncFinalDisk e (generate_avatar e d image audio job_id preprocess still use_enhancer) ∧
      tempAudioPath job_id ∉
        syncFinalDisk e (generate_avatar e d image audio job_id preprocess still use_enhancer)) ∧
    (tempImagePath job_id ∉ asyncFinalDisk e d image audio job_id preprocess still use_enhancer ∧
      tempAudioPath job_id ∉ asyncFinalDisk e d image audio job_id preprocess still use_enhancer) :=
  ⟨⟨sync_not_mem e d image audio job_id preprocess still use_enhancer hf _ hi (by simp),
    sync_not_mem e d image audio job_id preprocess still use_enhancer hf _ ha (by simp)⟩,
   ⟨async_not_mem e d image audio job_id preprocess still use_enhancer hf _ hi (by simp),
    async_not_mem e d image audio job_id preprocess still use_enhancer hf _ ha (by simp)⟩⟩

/-- Witness for C3: for a concrete successful job and for a concrete
failing one, both temp files are gone at the end of either endpoint's
lifecycle. -/
theorem c3_temp_files_cleaned_witness :
    ((tempImagePath "jw3" ∉
        syncFinalDisk envOk (generate_avatar envOk [] { content_type := "image/png" }
          { content_type := "audio/wav" } "jw3" "crop" false false) ∧
      tempAudioPath "jw3" ∉
        syncFinalDisk envOk (generate_avatar envOk [] { content_type := "image/png" }
          { content_type := "audio/wav" } "jw3" "crop" false false)) ∧
     (tempImagePath "jw3" ∉ asyncFinalDisk envOk [] { content_type := "image/png" }
        { content_type := "audio/wav" } "jw3" "crop" false false ∧
      tempAudioPath "jw3" ∉ asyncFinalDisk envOk [] { content_type := "image/png" }
        { content_type := "audio/wav" } "jw3" "crop" false false)) ∧
    ((tempImagePath "jw3" ∉
        syncFinalDisk envExitFail (generate_avatar envExitFail [] { content_type := "image/png" }
          { content_type := "audio/wav" } "jw3" "crop" false false) ∧
      tempAudioPath "jw3" ∉
        syncFinalDisk envExitFail (generate_avatar envExitFail [] { content_type := "image/png" }
          { content_type := "audio/wav" } "jw3" "crop" false false)) ∧
     (tempImagePath "jw3" ∉ asyncFinalDisk envExitFail [] { content_type := "image/png" }
        { content_type := "audio/wav" } "jw3" "crop" false false ∧
      tempAudioPath "jw3" ∉ asyncFinalDisk envExitFail [] { content_type := "image/png" }
        { content_type := "audio/wav" } "jw3" "crop" false false)) :=
  ⟨c3_temp_files_cleaned envOk [] { content_type := "image/png" } { content_type := "audio/wav" }
     "jw3" "crop" false false rfl (by decide) (by decide),
   c3_temp_files_cleaned envExitFail [] { content_type := "image/png" }
     { content_type := "audio/wav" } "jw3" "crop" false false rfl (by decide) (by decide)⟩

/-- Claim C5 counterexample: in `envRmFail` the generation of job `j5`
fails and `os.remove` raises on the image temp path, the first candidate
of the error-cleanup loop.  The handler then ends as `cleanupRaised`:
the audio temp file -- which exists on disk and whose removal would have
succeeded -- is never attempted and survives, and no HTTP 500 is
surfaced; this refutes the claim that the failure of one deletion does
not prevent the attempts on the others. -/
theorem c5_counterexample :
    generate_avatar envRmFail [] { content_type := "image/png" } { content_type := "audio/wav" }
        "j5" "crop" false false
      = SyncResult.cleanupRaised (tempImagePath "j5") [tempAudioPath "j5", tempImagePath "j5"] ∧
    tempAudioPath "j5" ∈ [tempAudioPath "j5", tempImagePath "j5"] ∧
    tempAudioPath "j5" ∉ envRmFail.failingRemoves := by
  decide

/-- Claim C5 (amended): on the synchronous endpoint, when generation
raises after the temp paths are derived, the handler deletes the
existing candidate paths `[image, audio, output]` IN ORDER with no
per-path guard.  When none of the three candidates' deletions fails,
all three are processed (none remains on disk) and an HTTP 500 whose
body is the stringified error is surfaced.  But when a deletion raises
-- on whichever candidate: the image, the audio, or the output path --
the candidates after it are never attempted (the final disk is the disk
with exactly the preceding existing candidates removed, so the later
files survive) and the deletion error propagates out of the handler in
place of the HTTP 500. -/
theorem c5_error_cleanup (e : Env) (d : Disk) (image audio : Upload)
    (job_id preprocess msg : String) (still use_enhancer : Bool)
    (h1 : e.is_initialized = true)
    (h2 : startswith image.content_type "image/" = true)
    (h3 : startswith audio.content_type "audio/" = true)
    (hg : (generate_video e ((d.create (tempImagePath job_id)).create (tempAudioPath job_id))
        (tempImagePath job_id) (tempAudioPath job_id) (outputPath job_id)
        preprocess still use_enhancer).result = Except.error msg) :
    ((∀ p ∈ [tempImagePath job_id, tempAudioPath job_id, outputPath job_id],
        p ∉ e.failingRemoves) →
      generate_avatar e d image audio job_id preprocess still use_enhancer
        = SyncResult.httpError 500 msg
            (cleanup_temp_files e.failingRemoves
              ((d.create (tempImagePath job_id)).create (tempAudioPath job_id))
              [tempImagePath job_id, tempAudioPath job_id, outputPath job_id]) ∧
      tempImagePath job_id ∉ cleanup_temp_files e.failingRemoves
        ((d.create (tempImagePath job_id)).create (tempAudioPath job_id))
        [tempImagePath job_id, tempAudioPath job_id, outputPath job_id] ∧
      tempAudioPath job_id ∉ cleanup_temp_files e.failingRemoves
        ((d.create (tempImagePath job_id)).create (tempAudioPath job_id))
        [tempImagePath job_id, tempAudioPath job_id, outputPath job_id] ∧
      outputPath job_id ∉ cleanup_temp_files e.failingRemoves
        ((d.create (tempImagePath job_id)).create (tempAudioPath job_id))
        [tempImagePath job_id, tempAudioPath job_id, outputPath job_id]) ∧
    (tempImagePath job_id ∈ e.failingRemoves →
      generate_avatar e d image audio job_id preprocess still use_enhancer
        = SyncResult.cleanupRaised (tempImagePath job_id)
            ((d.create (tempImagePath job_id)).create (tempAudioPath job_id)) ∧
      tempAudioPath job_id
        ∈ (d.create (tempImagePath job_id)).create (tempAudioPath job_id)) ∧
    (tempImagePath job_id ∉ e.failingRemoves →
      tempAudioPath job_id ∈ e.failingRemoves →
      generate_avatar e d image audio job_id preprocess still use_enhancer
        = SyncResult.cleanupRaised (tempAudioPath job_id)
            (((d.create (tempImagePath job_id)).create (tempAudioPath job_id)).remove
              (tempImagePath job_id)) ∧
      tempAudioPath job_id
        ∈ ((d.create (tempImagePath job_id)).create (tempAudioPath job_id)).remove
            (tempImagePath job_id)) ∧
    (tempImagePath job_id ∉ e.failingRemoves →
      tempAudioPath job_id ∉ e.failingRemoves →
      outputPath job_id ∈ e.failingRemoves →
      outputPath job_id
          ∈ (((d.create (tempImagePath job_id)).create (tempAudioPath job_id)).remove
              (tempImagePath job_id)).remove (tempAudioPath job_id) →
      generate_avatar e d image audio job_id preprocess still use_enhancer
        = SyncResult.cleanupRaised (outputPath job_id)
            ((((d.create (tempImagePath job_id)).create (tempAudioPath job_id)).remove
              (tempImagePath job_id)).remove (tempAudioPath job_id))) := by
  have hni : ¬ (e.is_initialized = false) := by simp [h1]
  have hn2 : ¬ (startswith image.content_type "image/" = false) := by simp [h2]
  have hn3 : ¬ (startswith audio.content_type "audio/" = false) := by simp [h3]
  have hdisk := generate_video_error_disk e
    ((d.create (tempImagePath job_id)).create (tempAudioPath job_id))
    (tempImagePath job_id) (tempAudioPath job_id) (outputPath job_id)
    preprocess still use_enhancer msg hg
  have hmi : tempImagePath job_id
      ∈ (d.create (tempImagePath job_id)).create (tempAudioPath job_id) :=
    mem_create_of_mem _ _ _ (mem_create_self _ _)
  have hma : tempAudioPath job_id
      ∈ (d.create (tempImagePath job_id)).create (tempAudioPath job_id) :=
    mem_create_self _ _
  have hma2 : tempAudioPath job_id
      ∈ ((d.create (tempImagePath job_id)).create (tempAudioPath job_id)).remove
          (tempImagePath job_id) :=
    mem_remove.mpr ⟨hma, tempAudioPath_ne_tempImagePath job_id⟩
  refine ⟨?_, ?_, ?_, ?_⟩
  · intro hf
    unfold generate_avatar
    rw [if_neg hni, if_neg hn2, if_neg hn3]
    dsimp only
    rw [hg, hdisk, removeExisting_no_failing e.failingRemoves _ hf]
    refine ⟨rfl, ?_, ?_, ?_⟩
    · exact cleanup_not_mem _ _ (hf _ (by simp)) _ _ (by simp)
    · exact cleanup_not_mem _ _ (hf _ (by simp)) _ _ (by simp)
    · exact cleanup_not_mem _ _ (hf _ (by simp)) _ _ (by simp)
  · intro hfail
    unfold generate_avatar
    rw [if_neg hni, if_neg hn2, if_neg hn3]
    dsimp only
    rw [hg, hdisk]
    have hstep : removeExisting e.failingRemoves
        ((d.create (tempImagePath job_id)).create (tempAudioPath job_id))
        [tempImagePath job_id, tempAudioPath job_id, outputPath job_id]
        = (((d.create (tempImagePath job_id)).create (tempAudioPath job_id)),
           some (tempImagePath job_id)) := by
      simp only [removeExisting, if_pos hmi, if_pos hfail]
    rw [hstep]
    exact ⟨rfl, hma⟩
  · intro hif hafail
    unfold generate_avatar
    rw [if_neg hni, if_neg hn2, if_neg hn3]
    dsimp only
    rw [hg, hdisk]
    have hstep : removeExisting e.failingRemoves
        ((d.create (tempImagePath job_id)).create (tempAudioPath job_id))
        [tempImagePath job_id, tempAudioPath job_id, outputPath job_id]
        = (((d.create (tempImagePath job_id)).create (tempAudioPath job_id)).remove
             (tempImagePath job_id),
           some (tempAudioPath job_id)) := by
      simp only [removeExisting, if_pos hmi, if_neg hif, if_pos hma2, if_pos hafail]
    rw [hstep]
    exact ⟨rfl, hma2⟩
  · intro hif haf hofail hom
    unfold generate_avatar
    rw [if_neg hni, if_neg hn2, if_neg hn3]
    dsimp only
    rw [hg, hdisk]
    have hstep : removeExisting e.failingRemoves
        ((d.create (tempImagePath job_id)).create (tempAudioPath job_id))
        [tempImagePath job_id, tempAudioPath job_id, outputPath job_id]
        = ((((d.create (tempImagePath job_id)).create (tempAudioPath job_id)).remove
              (tempImagePath job_id)).remove (tempAudioPath job_id),
           some (outputPath job_id)) := by
      simp only [removeExisting, if_pos hmi, if_neg hif, if_pos hma2, if_neg haf,
        if_pos hom, if_pos hofail]
    rw [hstep]

/-- Witness for the amended C5, exercising all four branches on job
`j5`: with none of the candidates failing (`envExitFail`) the handler
surfaces the 500 and no candidate file remains; with the image removal
failing (`envRmFail`) nothing is deleted and the audio file survives;
with only the audio removal failing (`envRmFailAudio`) exactly the image
was deleted before the abort; with only the output removal failing
(`envRmFailOut`, the output file pre-existing on disk) both temp files
were deleted before the abort -- in each failing case the handler ends
as the propagated removal error, not the 500. -/
theorem c5_error_cleanup_witness :
    (generate_avatar envExitFail [] { content_type := "image/png" } { content_type := "audio/wav" }
        "j5" "crop" false false
      = SyncResult.httpError 500 "Generation failed: SadTalker generation failed: boom"
          (cleanup_temp_files envExitFail.failingRemoves
            (Disk.create (Disk.create [] (tempImagePath "j5")) (tempAudioPath "j5"))
            [tempImagePath "j5", tempAudioPath "j5", outputPath "j5"]) ∧
      tempImagePath "j5" ∉ cleanup_temp_files envExitFail.failingRemoves
        (Disk.create (Disk.create [] (tempImagePath "j5")) (tempAudioPath "j5"))
        [tempImagePath "j5", tempAudioPath "j5", outputPath "j5"] ∧
      tempAudioPath "j5" ∉ cleanup_temp_files envExitFail.failingRemoves
        (Disk.create (Disk.create [] (tempImagePath "j5")) (tempAudioPath "j5"))
        [tempImagePath "j5", tempAudioPath "j5", outputPath "j5"] ∧
      outputPath "j5" ∉ cleanup_temp_files envExitFail.failingRemoves
        (Disk.create (Disk.create [] (tempImagePath "j5")) (tempAudioPath "j5"))
        [tempImagePath "j5", tempAudioPath "j5", outputPath "j5"]) ∧
    (generate_avatar envRmFail [] { content_type := "image/png" } { content_type := "audio/wav" }
        "j5" "crop" false false
      = SyncResult.cleanupRaised (tempImagePath "j5")
          (Disk.create (Disk.create [] (tempImagePath "j5")) (tempAudioPath "j5")) ∧
      tempAudioPath "j5"
        ∈ Disk.create (Disk.create [] (tempImagePath "j5")) (tempAudioPath "j5")) ∧
    (generate_avatar envRmFailAudio [] { content_type := "image/png" }
        { content_type := "audio/wav" } "j5" "crop" false false
      = SyncResult.cleanupRaised (tempAudioPath "j5")
          (Disk.remove (Disk.create (Disk.create [] (tempImagePath "j5")) (tempAudioPath "j5"))
            (tempImagePath "j5")) ∧
      tempAudioPath "j5"
        ∈ Disk.remove (Disk.create (Disk.create [] (tempImagePath "j5")) (tempAudioPath "j5"))
            (tempImagePath "j5")) ∧
    (generate_avatar envRmFailOut [outputPath "j5"] { content_type := "image/png" }
        { content_type := "audio/wav" } "j5" "crop" false false
      = SyncResult.cleanupRaised (outputPath "j5")
          (Disk.remove
            (Disk.remove
              (Disk.create (Disk.create [outputPath "j5"] (tempImagePath "j5"))
                (tempAudioPath "j5"))
              (tempImagePath "j5"))
            (tempAudioPath "j5"))) :=
  ⟨(c5_error_cleanup envExitFail [] { content_type := "image/png" } { content_type := "audio/wav" }
      "j5" "crop" "Generation failed: SadTalker generation failed: boom" false false
      rfl (by decide) (by decide) rfl).1 (by decide),
   (c5_error_cleanup envRmFail [] { content_type := "image/png" } { content_type := "audio/wav" }
      "j5" "crop" "Generation failed: SadTalker generation failed: boom" false false
      rfl (by decide) (by decide) rfl).2.1 (by decide),
   (c5_error_cleanup envRmFailAudio [] { content_type := "image/png" }
      { content_type := "audio/wav" }
      "j5" "crop" "Generation failed: SadTalker generation failed: boom" false false
      rfl (by decide) (by decide) rfl).2.2.1 (by decide) (by decide),
   (c5_error_cleanup envRmFailOut [outputPath "j5"] { content_type := "image/png" }
      { content_type := "audio/wav" }
      "j5" "crop" "Generation failed: SadTalker generation failed: boom" false false
      rfl (by decide) (by decide) rfl).2.2.2 (by decide) (by decide) (by decide) (by decide)⟩

end IAvatar
